import Mathlib

/-!
# Bluecon: verification of the metadata parser, SQL call builders and executor

Shallow embedding of the core logic of the Bluecon repository:

* `src/utils/function_parser.py` / `src/utils/procedure_parser.py` — regex-based
  extraction of a metadata descriptor from SQL source text;
* `src/utils/function_ui_helpers.py` / `src/utils/procedure_ui_helpers.py` — literal
  SQL call-text builders with per-type value formatting;
* `src/db/executor.py` — execution entry points that classify database failures
  into raised exception classes.

Strings are modelled as `List Char` (Python `str`).  The Python regexes used by the
parsers are small enough to be modelled directly by explicit scanning functions whose
behaviour matches the backtracking regex engine on the inputs the parser feeds them;
each modelling note is recorded at the corresponding definition.
-/

namespace Bluecon

/-- The characters matched by the regex class `\s` (ASCII range, which covers every
input this code base produces): space, tab, newline, carriage return, vertical tab,
form feed. -/
def isPySpace (c : Char) : Bool :=
  c = ' ' || c = '\t' || c = '\n' || c = '\r' || c = '\x0b' || c = '\x0c'

/-- Python `str.strip`: drop leading and trailing whitespace. -/
def pyStrip (s : List Char) : List Char :=
  ((s.dropWhile isPySpace).reverse.dropWhile isPySpace).reverse

/-- Python `str.upper` on ASCII input (all values flowing through the parsers in this
development are ASCII, where `Char.toUpper` agrees with Python). -/
def pyUpper (s : List Char) : List Char := s.map Char.toUpper

/-- Python `str.lower` on ASCII input. -/
def pyLower (s : List Char) : List Char := s.map Char.toLower

/-- Index of the first occurrence of `pat` as a contiguous substring of the scanned
list, as found by a left-to-right regex literal search. -/
def findSub (pat : List Char) : List Char → Option Nat
  | [] => if pat.isPrefixOf ([] : List Char) then some 0 else none
  | c :: rest =>
    if pat.isPrefixOf (c :: rest) then some 0
    else (findSub pat rest).map (· + 1)

/-- One attempted match of the field regex `--\s*<label>:\s*(.+)` anchored at the head
of `s`, returning the captured group (group 1) on success.

The greedy `\s*` before the capture means the capture starts at the first
non-whitespace character after the colon — which, because `\s` also matches a newline,
may lie on a *later line* of the block.  `(.+)` then extends greedily to the end of
that line.  When only whitespace follows the colon up to the end of `s` the regex can
still succeed through backtracking with an all-whitespace capture, but that needs
trailing whitespace in `s`; the parsers below only ever search a whitespace-trimmed
block, where that corner is unreachable, so it is modelled as a failed match. -/
def tryFieldAt (label s : List Char) : Option (List Char) :=
  if ['-', '-'].isPrefixOf s then
    let afterWs := (s.drop 2).dropWhile isPySpace
    if (label ++ [':']).isPrefixOf afterWs then
      let u := (afterWs.drop (label.length + 1)).dropWhile isPySpace
      if u = [] then none else some (u.takeWhile (· ≠ '\n'))
    else none
  else none

/-- `re.search` for the field pattern `--\s*<label>:\s*(.+)`: the match at the
leftmost position where the pattern succeeds, scanning left to right. -/
def findField (label : List Char) : List Char → Option (List Char)
  | [] => none
  | c :: rest =>
    match tryFieldAt label (c :: rest) with
    | some cap => some cap
    | none => findField label rest

/-- The end-marker comment line shared by both metadata block regexes. -/
def endMarker : List Char := "-- END_METADATA".data

/-- `re.search(startMarker + r"\s*(.*?)\s*-- END_METADATA", sql, re.DOTALL)`.

The lazy group against the two greedy `\s*` yields the text between the start marker
and the first end marker after it, trimmed of surrounding whitespace.  The leftmost
match begins at the first occurrence of the start marker: if that occurrence has no
end marker after it then no later occurrence has one either, so the search fails. -/
def extractBlock (startMarker sql : List Char) : Option (List Char) :=
  match findSub startMarker sql with
  | none => none
  | some i =>
    let rest := sql.drop (i + startMarker.length)
    match findSub endMarker rest with
    | none => none
    | some j => some (pyStrip (rest.take j))

/-- One parsed parameter: `{'name': str, 'type': str}` in the Python dicts. -/
structure ParamSpec where
  name : List Char
  type : List Char
deriving DecidableEq, Repr

/-- Python `str.split(",")`: split on every comma; the empty string splits to one
empty piece. -/
def splitOnComma : List Char → List (List Char)
  | [] => [[]]
  | c :: rest =>
    if c = ',' then [] :: splitOnComma rest
    else
      match splitOnComma rest with
      | [] => [[c]]
      | h :: t => (c :: h) :: t

/-- The part of `s` before its first colon (`s.split(":", 1)[0]`). -/
def beforeColon (s : List Char) : List Char := s.takeWhile (· ≠ ':')

/-- The part of `s` after its first colon (`s.split(":", 1)[1]`). -/
def afterColon (s : List Char) : List Char := (s.dropWhile (· ≠ ':')).drop 1

/-- The parameter-list loop shared verbatim by both parsers: split the params string
on commas, strip each entry, silently skip entries without a colon, split each kept
entry at its first colon, strip the name, strip and upper-case the type, preserving
order. -/
def parseParams (s : List Char) : List ParamSpec :=
  (splitOnComma s).filterMap fun entry =>
    let p := pyStrip entry
    if p.contains ':' then
      some { name := pyStrip (beforeColon p), type := pyUpper (pyStrip (afterColon p)) }
    else none

/-- The result dict built by `parse_function_metadata` / `parse_procedure_metadata`:
`{'name': ..., 'params': [...], 'description': ..., 'returns': ...}` where `name` and
`description` stay `None` when their field line is not matched. -/
structure Metadata where
  name : Option (List Char)
  params : List ParamSpec
  description : Option (List Char)
  returns : List Char
deriving DecidableEq, Repr

/-- The field-extraction body shared verbatim by both parsers (everything after the
block regex): four independent `re.search` calls over the captured block, with the
kind-specific default return type. -/
def parseFromBlock (defaultReturns block : List Char) : Metadata :=
  { name := (findField "name".data block).map pyStrip
    params :=
      match findField "params".data block with
      | none => []
      | some v =>
        let paramsStr := pyStrip v
        if paramsStr ≠ [] ∧ pyLower paramsStr ≠ "none".data then parseParams paramsStr
        else []
    description := (findField "description".data block).map pyStrip
    returns :=
      match findField "returns".data block with
      | none => defaultReturns
      | some v => pyUpper (pyStrip v) }

/-- `src/utils/function_parser.py::parse_function_metadata`: the `FUNCTION_METADATA`
block regex, then the shared field extraction with default return type `DECIMAL`.
The Python function contains no `raise` and only regex/string operations that cannot
throw, which the totality of this function reflects. -/
def parse_function_metadata (sql : List Char) : Option Metadata :=
  (extractBlock "-- FUNCTION_METADATA".data sql).map (parseFromBlock "DECIMAL".data)

/-- `src/utils/procedure_parser.py::parse_procedure_metadata`: identical to the
function parser except for the `PROCEDURE_METADATA` start marker and the `VOID`
default return type. -/
def parse_procedure_metadata (sql : List Char) : Option Metadata :=
  (extractBlock "-- PROCEDURE_METADATA".data sql).map (parseFromBlock "VOID".data)

/-! ## Call builders (`function_ui_helpers.py`, `procedure_ui_helpers.py`)

A parameter value is a dynamically typed Python value.  The builders inspect it only
through `is None`, `== ""`, `isinstance` on `str`/`bool`/`int`/`float`/`date`, and
`str(...)` interpolation, so it is embedded as a closed sum.  A `float` is carried
together with the decimal text `str` produces for it, because the builder uses a float
only through `str`; likewise the generic fallback value is carried as its `str` form.
The constructors are disjoint, which matches Python because the `isinstance(_, bool)`
test precedes the `isinstance(_, (int, float))` test in the source (a Python `bool`
would otherwise also pass the `int` test). -/

/-- A parameter value as the builders can observe it. -/
inductive PyVal where
  | pyNone
  | pyStr (s : List Char)
  | pyBool (b : Bool)
  | pyInt (n : Int)
  | pyFloat (text : List Char)
  | pyDate (y m d : Nat)
  | pyOther (text : List Char)
deriving DecidableEq, Repr

/-- Python `value.replace("'", "''")`: double every single quote. -/
def escapeQuotes : List Char → List Char
  | [] => []
  | c :: rest =>
    if c = '\'' then '\'' :: '\'' :: escapeQuotes rest else c :: escapeQuotes rest

/-- Decimal digits of `n`, left-padded with zeros to width `w` (Python `%0wd`). -/
def natPad (w n : Nat) : List Char :=
  let digits := (toString n).data
  List.replicate (w - digits.length) '0' ++ digits

/-- `str(datetime.date(y, m, d))`: the zero-padded ISO form `YYYY-MM-DD`. -/
def dateText (y m d : Nat) : List Char :=
  natPad 4 y ++ ['-'] ++ natPad 2 m ++ ['-'] ++ natPad 2 d

/-- `str(n)` for a Python `int` (Lean's decimal rendering of `Int` agrees). -/
def intText (n : Int) : List Char := (toString n).data

/-- `str(b).upper()` for a Python `bool`: `TRUE` / `FALSE`. -/
def boolText (b : Bool) : List Char := if b then "TRUE".data else "FALSE".data

/-- The per-value formatting chain in `build_function_call`
(`src/utils/function_ui_helpers.py`), in source order: `None` or `""` → `NULL`;
`str` → quote-wrapped with embedded quotes doubled; `bool` → `TRUE`/`FALSE`;
`int`/`float` → `str(value)`; `date` → quote-wrapped `str(value)`; anything else →
quote-wrapped `str(value)` with no escaping. -/
def formatFunctionValue : PyVal → List Char
  | .pyNone => "NULL".data
  | .pyStr s => if s = [] then "NULL".data else '\'' :: (escapeQuotes s ++ ['\''])
  | .pyBool b => boolText b
  | .pyInt n => intText n
  | .pyFloat text => text
  | .pyDate y m d => '\'' :: (dateText y m d ++ ['\''])
  | .pyOther text => '\'' :: (text ++ ['\''])

/-- The per-value formatting chain in `build_procedure_call`
(`src/utils/procedure_ui_helpers.py`), duplicated line for line from the function
builder in the source. -/
def formatProcedureValue : PyVal → List Char
  | .pyNone => "NULL".data
  | .pyStr s => if s = [] then "NULL".data else '\'' :: (escapeQuotes s ++ ['\''])
  | .pyBool b => boolText b
  | .pyInt n => intText n
  | .pyFloat text => text
  | .pyDate y m d => '\'' :: (dateText y m d ++ ['\''])
  | .pyOther text => '\'' :: (text ++ ['\''])

/-- Python `", ".join(parts)`. -/
def joinSep (sep : List Char) : List (List Char) → List Char
  | [] => []
  | [x] => x
  | x :: xs => x ++ sep ++ joinSep sep xs

/-- `src/utils/function_ui_helpers.py::build_function_call`.  The parameter mapping is
a Python dict iterated in insertion order, embedded as an association list; only the
values are used.  The two `return_type == "TABLE"` string comparisons and the four
f-string shapes are reproduced exactly. -/
def build_function_call (funcName : List Char) (paramsDict : List (List Char × PyVal))
    (returnType : List Char) : List Char :=
  if paramsDict = [] then
    if returnType = "TABLE".data then
      "SELECT * FROM ".data ++ funcName ++ "();".data
    else
      "SELECT ".data ++ funcName ++ "() AS result;".data
  else
    let paramsStr := joinSep ", ".data (paramsDict.map fun p => formatFunctionValue p.2)
    if returnType = "TABLE".data then
      "SELECT * FROM ".data ++ funcName ++ "(".data ++ paramsStr ++ ");".data
    else
      "SELECT ".data ++ funcName ++ "(".data ++ paramsStr ++ ") AS result;".data

/-- `src/utils/procedure_ui_helpers.py::build_procedure_call`: always a `CALL`
statement, with no return-shape branch. -/
def build_procedure_call (procName : List Char)
    (paramsDict : List (List Char × PyVal)) : List Char :=
  if paramsDict = [] then
    "CALL ".data ++ procName ++ "();".data
  else
    let paramsStr := joinSep ", ".data (paramsDict.map fun p => formatProcedureValue p.2)
    "CALL ".data ++ procName ++ "(".data ++ paramsStr ++ ");".data

/-! ## Execution adapter (`src/db/executor.py`)

The three entry points call the database through `psycopg2`/`pandas`; the database's
behaviour is the environment and is embedded as an oracle value: either a successful
payload or one of the `psycopg2` error classes that appear in some `except` clause of
the file, plus a catch-all for any other `psycopg2.Error` subclass and one for any
non-database exception.  Every specific `psycopg2.errors.*` class is a subclass of
`psycopg2.Error`, so an outcome without a dedicated `except` clause in a given entry
point falls through to that entry point's `except psycopg2.Error` handler.  Each model
reproduces its function's `except` chain in source order; raising `ValueError(msg)`
or `Exception(msg)` is embedded as returning `Except.error` with the matching
constructor of `AppError` and the exact f-string message. -/

/-- The outcome of the underlying database call, with `α` the success payload. -/
inductive DbOutcome (α : Type) where
  | ok (a : α)
  | undefinedFunction (msg : List Char)
  | undefinedTable (msg : List Char)
  | undefinedColumn (msg : List Char)
  | sqlSyntaxError (msg : List Char)
  | raiseException (msg : List Char)
  | invalidParameterValue (msg : List Char)
  | numericValueOutOfRange (msg : List Char)
  | foreignKeyViolation (msg : List Char)
  | checkViolation (msg : List Char)
  | otherPgError (msg : List Char)
  | nonDbError (msg : List Char)
deriving DecidableEq, Repr

/-- An exception raised by an executor entry point: `ValueError(msg)` or the generic
`Exception(msg)`. -/
inductive AppError where
  | valueError (msg : List Char)
  | exception (msg : List Char)
deriving DecidableEq, Repr

/-- The kind of an executor result, ignoring payloads and messages: success, raised
`ValueError`, or raised generic `Exception`. -/
inductive ResultClass where
  | ok
  | valueError
  | exception
deriving DecidableEq, Repr

/-- Classify an executor result by its kind alone. -/
def resultClass {α : Type} : Except AppError α → ResultClass
  | .ok _ => .ok
  | .error (.valueError _) => .valueError
  | .error (.exception _) => .exception

/-- `src/db/executor.py::run_query`: `pd.read_sql` then the `except` chain
`UndefinedFunction`, `UndefinedTable`, `UndefinedColumn`, `SyntaxError`,
`psycopg2.Error`, `Exception`. -/
def run_query {α : Type} : DbOutcome α → Except AppError α
  | .ok a => .ok a
  | .undefinedFunction m =>
    .error (.valueError ("Database function not found: ".data ++ m ++
      "\n💡 Tip: Ensure all functions in database/functions/ are created in your database.".data))
  | .undefinedTable m => .error (.valueError ("Table not found: ".data ++ m))
  | .undefinedColumn m => .error (.valueError ("Column not found: ".data ++ m))
  | .sqlSyntaxError m => .error (.valueError ("SQL syntax error: ".data ++ m))
  | .raiseException m => .error (.exception ("Database error: ".data ++ m))
  | .invalidParameterValue m => .error (.exception ("Database error: ".data ++ m))
  | .numericValueOutOfRange m => .error (.exception ("Database error: ".data ++ m))
  | .foreignKeyViolation m => .error (.exception ("Database error: ".data ++ m))
  | .checkViolation m => .error (.exception ("Database error: ".data ++ m))
  | .otherPgError m => .error (.exception ("Database error: ".data ++ m))
  | .nonDbError m => .error (.exception ("Unexpected error: ".data ++ m))

/-- `src/db/executor.py::run_function`: `pd.read_sql` then the `except` chain
`UndefinedFunction`, `RaiseException`, `InvalidParameterValue`,
`NumericValueOutOfRange`, `psycopg2.Error`, `Exception`. -/
def run_function {α : Type} : DbOutcome α → Except AppError α
  | .ok a => .ok a
  | .undefinedFunction m => .error (.valueError ("Function not found in database: ".data ++ m))
  | .undefinedTable m => .error (.exception ("Database error: ".data ++ m))
  | .undefinedColumn m => .error (.exception ("Database error: ".data ++ m))
  | .sqlSyntaxError m => .error (.exception ("Database error: ".data ++ m))
  | .raiseException m => .error (.valueError ("Function error: ".data ++ m))
  | .invalidParameterValue m => .error (.valueError ("Invalid parameter value: ".data ++ m))
  | .numericValueOutOfRange m => .error (.valueError ("Numeric value out of range: ".data ++ m))
  | .foreignKeyViolation m => .error (.exception ("Database error: ".data ++ m))
  | .checkViolation m => .error (.exception ("Database error: ".data ++ m))
  | .otherPgError m => .error (.exception ("Database error: ".data ++ m))
  | .nonDbError m => .error (.exception ("Unexpected error: ".data ++ m))

/-- The dict `{'success': True, 'notices': [...]}` returned by `run_procedure`. -/
structure ProcResult where
  success : Bool
  notices : List (List Char)
deriving DecidableEq, Repr

/-- `src/db/executor.py::run_procedure`: `cur.execute` and `conn.commit`, then
`list(conn.notices) if hasattr(conn, "notices") and conn.notices else []` (a
`psycopg2` connection always has the `notices` attribute, so only the
truthiness test on the list remains), then the `except` chain `RaiseException`,
`InvalidParameterValue`, `ForeignKeyViolation`, `CheckViolation`, `psycopg2.Error`,
`Exception`.  The success payload of the oracle is the connection's collected
notice list. -/
def run_procedure : DbOutcome (List (List Char)) → Except AppError ProcResult
  | .ok notices =>
    .ok { success := true, notices := if notices.isEmpty then [] else notices }
  | .undefinedFunction m => .error (.exception ("Database error: ".data ++ m))
  | .undefinedTable m => .error (.exception ("Database error: ".data ++ m))
  | .undefinedColumn m => .error (.exception ("Database error: ".data ++ m))
  | .sqlSyntaxError m => .error (.exception ("Database error: ".data ++ m))
  | .raiseException m => .error (.valueError ("Procedure validation error: ".data ++ m))
  | .invalidParameterValue m => .error (.valueError ("Invalid parameter value: ".data ++ m))
  | .numericValueOutOfRange m => .error (.exception ("Database error: ".data ++ m))
  | .foreignKeyViolation m => .error (.valueError ("Foreign key constraint error: ".data ++ m))
  | .checkViolation m => .error (.valueError ("Check constraint error: ".data ++ m))
  | .otherPgError m => .error (.exception ("Database error: ".data ++ m))
  | .nonDbError m => .error (.exception ("Unexpected error: ".data ++ m))

/-! ## Theorems -/

/-- A metadata block is present in the raw SQL text: the kind-specific start marker
occurs, with the end marker occurring after it. -/
def BlockPresent (startMarker sql : List Char) : Prop :=
  ∃ a b c, sql = a ++ startMarker ++ b ++ endMarker ++ c

/-- The database outcomes on which `run_query` and `run_function` raise the same
exception class: success, `UndefinedFunction`, `ForeignKeyViolation`,
`CheckViolation`, other `psycopg2.Error` subclasses, and non-database errors. -/
def c3ClassesAgree {α : Type} : DbOutcome α → Bool
  | .ok _ => true
  | .undefinedFunction _ => true
  | .foreignKeyViolation _ => true
  | .checkViolation _ => true
  | .otherPgError _ => true
  | .nonDbError _ => true
  | _ => false

/-- C3 counterexample: the claim that `run_query` and `run_function` classify every
database failure into the same error kind is false — on an `UndefinedTable` error,
`run_query` raises `ValueError("Table not found: ...")` while `run_function` lets it
fall through to the generic handler and raises `Exception("Database error: ...")`. -/
theorem c3_counterexample :
    run_query (DbOutcome.undefinedTable "relation missing".data : DbOutcome Unit) =
      Except.error (AppError.valueError ("Table not found: relation missing".data)) ∧
    run_function (DbOutcome.undefinedTable "relation missing".data : DbOutcome Unit) =
      Except.error (AppError.exception ("Database error: relation missing".data)) ∧
    resultClass (run_query (DbOutcome.undefinedTable "relation missing".data : DbOutcome Unit)) ≠
      resultClass (run_function (DbOutcome.undefinedTable "relation missing".data : DbOutcome Unit)) := by
  refine ⟨rfl, rfl, by decide⟩

/-- C3 (amended): `run_function` and `run_query` produce the same result on success,
and raise the same exception class exactly on the outcomes listed in
`c3ClassesAgree`; they differ on `UndefinedTable`, `UndefinedColumn` and
`SyntaxError` (`ValueError` only in `run_query`) and on `RaiseException`,
`InvalidParameterValue` and `NumericValueOutOfRange` (`ValueError` only in
`run_function`). -/
theorem c3_amended {α : Type} (o : DbOutcome α) :
    (∀ a : α, run_query o = Except.ok a ↔ run_function o = Except.ok a) ∧
    (resultClass (run_query o) = resultClass (run_function o) ↔ c3ClassesAgree o = true) := by
  cases o <;> simp [run_query, run_function, resultClass, c3ClassesAgree]

/-- C4: the value-formatting chain applies its cases in priority order with the first
match winning — `None` and `""` format to the unquoted literal `NULL` (so the empty
string is never quote-wrapped), any other text is single-quote-wrapped with every
embedded single quote doubled (`O'Brien` formats to `'O''Brien'`), `True` formats to
`TRUE`, `42` to `42`, `3.5` to `3.5`, a calendar date is single-quote-wrapped, and any
other value falls back to its single-quote-wrapped string form; the procedure builder
formats values identically. -/
theorem c4_value_formatting :
    formatFunctionValue PyVal.pyNone = "NULL".data ∧
    formatFunctionValue (PyVal.pyStr []) = "NULL".data ∧
    (∀ s, formatFunctionValue (PyVal.pyStr s) =
        if s = [] then "NULL".data else '\'' :: (escapeQuotes s ++ ['\''])) ∧
    formatFunctionValue (PyVal.pyStr "O'Brien".data) = "'O''Brien'".data ∧
    formatFunctionValue (PyVal.pyBool true) = "TRUE".data ∧
    formatFunctionValue (PyVal.pyBool false) = "FALSE".data ∧
    formatFunctionValue (PyVal.pyInt 42) = "42".data ∧
    formatFunctionValue (PyVal.pyFloat "3.5".data) = "3.5".data ∧
    (∀ y m d, formatFunctionValue (PyVal.pyDate y m d) = '\'' :: (dateText y m d ++ ['\''])) ∧
    (∀ t, formatFunctionValue (PyVal.pyOther t) = '\'' :: (t ++ ['\''])) ∧
    (∀ v, formatProcedureValue v = formatFunctionValue v) := by
  refine ⟨rfl, rfl, fun s => rfl, by decide, rfl, rfl, by decide, rfl,
    fun y m d => rfl, fun t => rfl, fun v => ?_⟩
  cases v <;> rfl

/-- C5: the function call builder emits exactly the four claimed shapes — with an
empty mapping, `SELECT * FROM name();` when the return kind is `TABLE` and
`SELECT name() AS result;` otherwise; with a non-empty mapping, the formatted values
joined by `", "` inside `SELECT * FROM name(args);` or `SELECT name(args) AS result;`
by the same return-kind rule. -/
theorem c5_function_call_shapes :
    (∀ name rt, build_function_call name [] rt =
        if rt = "TABLE".data then "SELECT * FROM ".data ++ name ++ "();".data
        else "SELECT ".data ++ name ++ "() AS result;".data) ∧
    (∀ name rt p ps, build_function_call name (p :: ps) rt =
        if rt = "TABLE".data then
          "SELECT * FROM ".data ++ name ++ "(".data ++
            joinSep ", ".data ((p :: ps).map fun q => formatFunctionValue q.2) ++ ");".data
        else
          "SELECT ".data ++ name ++ "(".data ++
            joinSep ", ".data ((p :: ps).map fun q => formatFunctionValue q.2) ++
              ") AS result;".data) ∧
    build_function_call "f".data [] "TABLE".data = "SELECT * FROM f();".data ∧
    build_function_call "f".data [] "DECIMAL".data = "SELECT f() AS result;".data := by
  refine ⟨fun name rt => rfl, fun name rt p ps => ?_, by decide, by decide⟩
  simp [build_function_call]

/-- C8: the procedure call builder always emits exactly `CALL name();` for an empty
mapping and `CALL name(args);` otherwise, with no return-shape branch, using the same
value formatting as the function builder; in particular `p` with `{qty: None}` yields
`CALL p(NULL);`. -/
theorem c8_procedure_call_shapes :
    (∀ name, build_procedure_call name [] = "CALL ".data ++ name ++ "();".data) ∧
    (∀ name p ps, build_procedure_call name (p :: ps) =
        "CALL ".data ++ name ++ "(".data ++
          joinSep ", ".data ((p :: ps).map fun q => formatProcedureValue q.2) ++ ");".data) ∧
    (∀ v, formatProcedureValue v = formatFunctionValue v) ∧
    build_procedure_call "p".data [("qty".data, PyVal.pyNone)] = "CALL p(NULL);".data := by
  refine ⟨fun name => rfl, fun name p ps => by simp [build_procedure_call],
    fun v => by cases v <;> rfl, by decide⟩

/-- C6: a `RaiseException` from a procedure body (an application-level validation
error) is surfaced by `run_procedure` as a `ValueError` — the kind distinct from the
generic `Exception` failures — whose message contains the routine's own message
verbatim as a suffix. -/
theorem c6_procedure_validation_error (msg : List Char) :
    run_procedure (DbOutcome.raiseException msg) =
      Except.error (AppError.valueError ("Procedure validation error: ".data ++ msg)) ∧
    resultClass (run_procedure (DbOutcome.raiseException msg)) = ResultClass.valueError ∧
    msg <:+ "Procedure validation error: ".data ++ msg :=
  ⟨rfl, rfl, "Procedure validation error: ".data, rfl⟩

/-- C10: whenever `run_procedure` returns normally its envelope has `success = True`
and `notices` equal to the connection's collected notice strings; a normal return only
arises from a successful database outcome, so an envelope with `success = False` is
never returned — every failure path raises. -/
theorem c10_success_envelope :
    (∀ notices, run_procedure (DbOutcome.ok notices) =
        Except.ok { success := true, notices := notices }) ∧
    (∀ (o : DbOutcome (List (List Char))) (r : ProcResult),
        run_procedure o = Except.ok r →
          r.success = true ∧ ∃ notices, o = DbOutcome.ok notices ∧ r.notices = notices) := by
  constructor
  · intro notices
    cases notices <;> simp [run_procedure]
  · intro o r h
    rcases o with n | m | m | m | m | m | m | m | m | m | m | m
    · simp only [run_procedure, Except.ok.injEq] at h
      subst h
      exact ⟨rfl, n, rfl, by cases n <;> simp⟩
    all_goals simp [run_procedure] at h

/-- Witness for C10 at a concrete successful outcome with one notice. -/
theorem c10_success_envelope_witness :
    run_procedure (DbOutcome.ok ["done".data]) =
        Except.ok { success := true, notices := ["done".data] } ∧
    (({ success := true, notices := ["done".data] } : ProcResult).success = true ∧
      ∃ notices, (DbOutcome.ok ["done".data] : DbOutcome (List (List Char))) =
        DbOutcome.ok notices ∧
        ({ success := true, notices := ["done".data] } : ProcResult).notices = notices) :=
  ⟨rfl, c10_success_envelope.2 (DbOutcome.ok ["done".data]) _ rfl⟩

/-! ### Parser lemmas -/

/-- Stripping a list whose head is not whitespace cannot give the empty list. -/
theorem pyStrip_cons_ne_nil {c : Char} {t : List Char} (h : isPySpace c = false) :
    pyStrip (c :: t) ≠ [] := by
  intro hnil
  unfold pyStrip at hnil
  rw [List.dropWhile_cons] at hnil
  simp only [h, Bool.false_eq_true, if_false] at hnil
  rw [List.reverse_eq_nil_iff, List.dropWhile_eq_nil_iff] at hnil
  have hc := hnil c (by simp)
  rw [h] at hc
  exact Bool.noConfusion hc

/-- The first element surviving `dropWhile` fails the predicate. -/
theorem dropWhile_head_false {p : Char → Bool} :
    ∀ {l : List Char} {c : Char} {t : List Char}, l.dropWhile p = c :: t → p c = false := by
  intro l
  induction l with
  | nil => intro c t h; exact List.noConfusion h
  | cons x xs ih =>
    intro c t h
    rw [List.dropWhile_cons] at h
    split at h
    · exact ih h
    · next hx =>
      obtain ⟨rfl, rfl⟩ := List.cons.inj h
      simpa using hx

/-- A successful field match captures text that still contains a non-whitespace
character after stripping: the greedy `\s*` puts the capture's first character past
all whitespace. -/
theorem tryFieldAt_strip_ne_nil {label s v : List Char}
    (h : tryFieldAt label s = some v) : pyStrip v ≠ [] := by
  simp only [tryFieldAt] at h
  split at h
  · split at h
    · split at h
      · exact Option.noConfusion h
      · next hu =>
        obtain ⟨c, rest, hcr⟩ := List.exists_cons_of_ne_nil hu
        have hhead : isPySpace c = false := dropWhile_head_false hcr
        have hcn : c ≠ '\n' := by
          intro he
          rw [he] at hhead
          exact Bool.noConfusion hhead
        rw [hcr] at h
        obtain rfl := Option.some.inj h
        have heq : List.takeWhile (fun x => decide (x ≠ '\n')) (c :: rest)
            = c :: List.takeWhile (fun x => decide (x ≠ '\n')) rest :=
          List.takeWhile_cons_of_pos (decide_eq_true hcn)
        rw [heq]
        exact pyStrip_cons_ne_nil hhead
    · exact Option.noConfusion h
  · exact Option.noConfusion h

/-- Any capture returned by the field search strips to a non-empty string. -/
theorem findField_strip_ne_nil {label v : List Char} :
    ∀ {b : List Char}, findField label b = some v → pyStrip v ≠ [] := by
  intro b
  induction b with
  | nil => intro h; exact Option.noConfusion h
  | cons c rest ih =>
    intro h
    rw [findField] at h
    cases htry : tryFieldAt label (c :: rest) with
    | some cap =>
      rw [htry] at h
      obtain rfl := Option.some.inj h
      exact tryFieldAt_strip_ne_nil htry
    | none =>
      rw [htry] at h
      exact ih h

/-- The `returns` field of the shared field-extraction body: the upper-cased stripped
capture when the field regex matches, the kind default otherwise, and in either case
non-empty as long as the default is non-empty. -/
theorem parseFromBlock_returns (d b : List Char) (hd : d ≠ []) :
    (parseFromBlock d b).returns ≠ [] ∧
    ((∃ v, findField "returns".data b = some v ∧
        (parseFromBlock d b).returns = pyUpper (pyStrip v)) ∨
      (findField "returns".data b = none ∧ (parseFromBlock d b).returns = d)) := by
  unfold parseFromBlock
  cases hf : findField "returns".data b with
  | none => exact ⟨hd, Or.inr ⟨rfl, rfl⟩⟩
  | some v =>
    refine ⟨?_, Or.inl ⟨v, rfl, rfl⟩⟩
    intro hnil
    unfold pyUpper at hnil
    rw [List.map_eq_nil_iff] at hnil
    exact findField_strip_ne_nil hf hnil

/-- C2: for every parsed descriptor the `returns` field is a non-empty string — the
trimmed upper-cased value of the matched `returns` line when one is present, and
otherwise the default `DECIMAL` for the function parser and `VOID` for the procedure
parser. -/
theorem c2_returns_defaulted :
    (∀ sql b m, extractBlock "-- FUNCTION_METADATA".data sql = some b →
        parse_function_metadata sql = some m →
        m.returns ≠ [] ∧
        ((∃ v, findField "returns".data b = some v ∧ m.returns = pyUpper (pyStrip v)) ∨
          (findField "returns".data b = none ∧ m.returns = "DECIMAL".data))) ∧
    (∀ sql b m, extractBlock "-- PROCEDURE_METADATA".data sql = some b →
        parse_procedure_metadata sql = some m →
        m.returns ≠ [] ∧
        ((∃ v, findField "returns".data b = some v ∧ m.returns = pyUpper (pyStrip v)) ∨
          (findField "returns".data b = none ∧ m.returns = "VOID".data))) := by
  constructor <;> intro sql b m hb hm
  · rw [parse_function_metadata, hb, Option.map_some'] at hm
    obtain rfl := Option.some.inj hm
    exact parseFromBlock_returns _ b (by decide)
  · rw [parse_procedure_metadata, hb, Option.map_some'] at hm
    obtain rfl := Option.some.inj hm
    exact parseFromBlock_returns _ b (by decide)

/-- Witness for C2: a function block whose `returns` line reads `table` parses with
`returns = TABLE`, and the property holds at it. -/
theorem c2_returns_defaulted_witness :
    (extractBlock "-- FUNCTION_METADATA".data
        "-- FUNCTION_METADATA\n-- returns: table\n-- END_METADATA".data =
      some "-- returns: table".data ∧
      parse_function_metadata "-- FUNCTION_METADATA\n-- returns: table\n-- END_METADATA".data =
        some { name := none, params := [], description := none, returns := "TABLE".data }) ∧
    (({ name := none, params := [], description := none,
        returns := "TABLE".data } : Metadata).returns ≠ [] ∧
      ((∃ v, findField "returns".data "-- returns: table".data = some v ∧
          ({ name := none, params := [], description := none,
             returns := "TABLE".data } : Metadata).returns = pyUpper (pyStrip v)) ∨
        (findField "returns".data "-- returns: table".data = none ∧
          ({ name := none, params := [], description := none,
             returns := "TABLE".data } : Metadata).returns = "DECIMAL".data))) :=
  ⟨⟨by decide, by decide⟩,
    c2_returns_defaulted.1 "-- FUNCTION_METADATA\n-- returns: table\n-- END_METADATA".data
      "-- returns: table".data
      { name := none, params := [], description := none, returns := "TABLE".data }
      (by decide) (by decide)⟩

/-- A successful substring search decomposes the scanned list around the pattern. -/
theorem findSub_decomp {pat : List Char} :
    ∀ {s : List Char} {i : Nat}, findSub pat s = some i →
      ∃ a b, s = a ++ pat ++ b ∧ a.length = i := by
  intro s
  induction s with
  | nil =>
    intro i h
    rw [findSub] at h
    split at h
    · next hp =>
      rw [List.isPrefixOf_iff_prefix, List.prefix_nil] at hp
      exact ⟨[], [], by simp [hp], by simpa using Option.some.inj h⟩
    · exact Option.noConfusion h
  | cons c rest ih =>
    intro i h
    rw [findSub] at h
    split at h
    · next hp =>
      rw [List.isPrefixOf_iff_prefix] at hp
      obtain ⟨tail, htail⟩ := hp
      exact ⟨[], tail, by simp [htail], by simpa using Option.some.inj h⟩
    · rw [Option.map_eq_some'] at h
      obtain ⟨j, hj, rfl⟩ := h
      obtain ⟨a, tail, hs, hlen⟩ := ih hj
      exact ⟨c :: a, tail, by simp [hs], by simp [hlen]⟩

/-- A successful block extraction exhibits the start marker followed by the end
marker in the raw SQL text. -/
theorem extractBlock_some {startMarker sql b : List Char}
    (h : extractBlock startMarker sql = some b) : BlockPresent startMarker sql := by
  unfold extractBlock at h
  cases h1 : findSub startMarker sql with
  | none => rw [h1] at h; exact Option.noConfusion h
  | some i =>
    rw [h1] at h
    obtain ⟨a, rest0, hs, hlen⟩ := findSub_decomp h1
    have hdrop : sql.drop (i + startMarker.length) = rest0 := by
      rw [hs]
      exact List.drop_left' (by simp [hlen])
    cases h2 : findSub endMarker (sql.drop (i + startMarker.length)) with
    | none => simp only [h2] at h; exact Option.noConfusion h
    | some j =>
      obtain ⟨x, y, hxy, -⟩ := findSub_decomp h2
      rw [hdrop] at hxy
      refine ⟨a, x, y, ?_⟩
      rw [hs, hxy]
      simp [List.append_assoc]

/-- C9: the metadata parsers are total functions that signal absence through the
`Option` result — whenever a parse yields a descriptor, a metadata block delimited by
the kind-specific start marker and `END_METADATA` is present in the source, so on any
text with no such block both parsers return `none` rather than raising or producing a
partial descriptor (the Python bodies contain no `raise` and only non-throwing
regex/string operations, which the totality of the embedding reflects). -/
theorem c9_absent_metadata :
    (∀ sql m, parse_function_metadata sql = some m →
        BlockPresent "-- FUNCTION_METADATA".data sql) ∧
    (∀ sql m, parse_procedure_metadata sql = some m →
        BlockPresent "-- PROCEDURE_METADATA".data sql) := by
  constructor <;> intro sql m h
  · rw [parse_function_metadata, Option.map_eq_some'] at h
    obtain ⟨block, hb, -⟩ := h
    exact extractBlock_some hb
  · rw [parse_procedure_metadata, Option.map_eq_some'] at h
    obtain ⟨block, hb, -⟩ := h
    exact extractBlock_some hb

/-- The shared field-extraction body leaves the parameter list empty when the params
field regex does not match, or when its stripped capture is empty or lower-cases to
the literal token `none`. -/
theorem parseFromBlock_params_empty (d b : List Char)
    (hcond : match findField "params".data b with
      | none => True
      | some v => pyStrip v = [] ∨ pyLower (pyStrip v) = "none".data) :
    (parseFromBlock d b).params = [] := by
  cases hf : findField "params".data b with
  | none => simp only [parseFromBlock, hf]
  | some v =>
    rw [hf] at hcond
    simp only [parseFromBlock, hf]
    split
    · next hcnd =>
      rcases hcond with h | h
      · exact absurd h hcnd.1
      · exact absurd h hcnd.2
    · rfl

/-- C1 counterexample: the claim that an empty-valued `params` field always yields an
empty parameter list is false.  In the block below the `params` line has an empty
value but is followed by the `returns` line; the params regex's `\s*` crosses the
newline, the whole `returns` line is captured as the params value, and the descriptor
carries one bogus parameter named `-- returns` of type `INT` instead of none. -/
theorem c1_counterexample :
    (parse_function_metadata
        "-- FUNCTION_METADATA\n-- params:\n-- returns: INT\n-- END_METADATA".data).map
      Metadata.params = some [{ name := "-- returns".data, type := "INT".data }] ∧
    (parse_function_metadata
        "-- FUNCTION_METADATA\n-- params:\n-- returns: INT\n-- END_METADATA".data).map
      Metadata.params ≠ some [] := by
  refine ⟨by decide, by decide⟩

/-- C1 (amended): a `params` field whose captured value lower-cases to the literal
token `none`, or strips to the empty string, yields an empty parameter list — and a
`params` line with an empty value produces such a capture only when it is the last
content of the metadata block (the field regex then fails to match and the default
empty list stays); when another line follows inside the block, the regex's `\s*`
crosses the newline and that following line is captured as the params value
instead. -/
theorem c1_amended_params_none_or_empty :
    (∀ sql b m, extractBlock "-- FUNCTION_METADATA".data sql = some b →
        parse_function_metadata sql = some m →
        (match findField "params".data b with
          | none => True
          | some v => pyStrip v = [] ∨ pyLower (pyStrip v) = "none".data) →
        m.params = []) ∧
    (∀ sql b m, extractBlock "-- PROCEDURE_METADATA".data sql = some b →
        parse_procedure_metadata sql = some m →
        (match findField "params".data b with
          | none => True
          | some v => pyStrip v = [] ∨ pyLower (pyStrip v) = "none".data) →
        m.params = []) ∧
    (parse_function_metadata
        "-- FUNCTION_METADATA\n-- name: f\n-- params: NoNe\n-- END_METADATA".data).map
      Metadata.params = some [] ∧
    (parse_function_metadata
        "-- FUNCTION_METADATA\n-- name: f\n-- params:\n-- END_METADATA".data).map
      Metadata.params = some [] ∧
    (parse_procedure_metadata
        "-- PROCEDURE_METADATA\n-- name: p\n-- params: NONE\n-- END_METADATA".data).map
      Metadata.params = some [] ∧
    (parse_procedure_metadata
        "-- PROCEDURE_METADATA\n-- name: p\n-- params:\n-- END_METADATA".data).map
      Metadata.params = some [] := by
  refine ⟨?_, ?_, by decide, by decide, by decide, by decide⟩
  · intro sql b m hb hm hcond
    rw [parse_function_metadata, hb, Option.map_some'] at hm
    obtain rfl := Option.some.inj hm
    exact parseFromBlock_params_empty _ b hcond
  · intro sql b m hb hm hcond
    rw [parse_procedure_metadata, hb, Option.map_some'] at hm
    obtain rfl := Option.some.inj hm
    exact parseFromBlock_params_empty _ b hcond

/-- Witness for the amended C1 at a concrete block whose `params` value is the token
`NoNe`. -/
theorem c1_amended_params_none_or_empty_witness :
    (extractBlock "-- FUNCTION_METADATA".data
        "-- FUNCTION_METADATA\n-- name: f\n-- params: NoNe\n-- END_METADATA".data =
      some "-- name: f\n-- params: NoNe".data ∧
      parse_function_metadata
          "-- FUNCTION_METADATA\n-- name: f\n-- params: NoNe\n-- END_METADATA".data =
        some { name := some "f".data, params := [], description := none,
               returns := "DECIMAL".data } ∧
      pyLower (pyStrip "NoNe".data) = "none".data) ∧
    ({ name := some "f".data, params := [], description := none,
       returns := "DECIMAL".data } : Metadata).params = [] :=
  ⟨⟨by decide, by decide, by decide⟩,
    c1_amended_params_none_or_empty.1
      "-- FUNCTION_METADATA\n-- name: f\n-- params: NoNe\n-- END_METADATA".data
      "-- name: f\n-- params: NoNe".data
      { name := some "f".data, params := [], description := none,
        returns := "DECIMAL".data }
      (by decide) (by decide) (Or.inr (by decide))⟩

/-- Splitting on commas around a comma-free first entry splits off exactly that
entry. -/
theorem splitOnComma_append {e : List Char} (he : ∀ ch ∈ e, ch ≠ ',')
    (rest : List Char) :
    splitOnComma (e ++ ',' :: rest) = e :: splitOnComma rest := by
  induction e with
  | nil => simp [splitOnComma]
  | cons c e ih =>
    have hc : c ≠ ',' := he c (List.mem_cons_self c e)
    have ih2 := ih (fun ch hch => he ch (List.mem_cons_of_mem c hch))
    rw [List.cons_append, splitOnComma, if_neg hc, ih2]

/-- C7: the params list `a:INT,b:TEXT,c:DATE` yields exactly three parameter specs in
declaration order with trimmed names and upper-cased types; and an entry lacking a
colon is silently skipped — removing a comma-free colon-free entry from the front of a
params string leaves the parsed parameter list unchanged. -/
theorem c7_params_order_and_skip :
    parse_function_metadata
        "-- FUNCTION_METADATA\n-- name: f\n-- params: a:INT,b:TEXT,c:DATE\n-- END_METADATA".data =
      some { name := some "f".data,
             params := [{ name := "a".data, type := "INT".data },
                        { name := "b".data, type := "TEXT".data },
                        { name := "c".data, type := "DATE".data }],
             description := none, returns := "DECIMAL".data } ∧
    (∀ e rest, (∀ ch ∈ e, ch ≠ ',') → (pyStrip e).contains ':' = false →
        parseParams (e ++ ',' :: rest) = parseParams rest) := by
  refine ⟨by decide, ?_⟩
  intro e rest he hcolon
  unfold parseParams
  rw [splitOnComma_append he, List.filterMap_cons]
  simp only [hcolon, Bool.false_eq_true, if_false]

/-- Witness for C7's skip clause at a concrete colon-free entry. -/
theorem c7_params_order_and_skip_witness :
    ((∀ ch ∈ "nocolon".data, ch ≠ ',') ∧ (pyStrip "nocolon".data).contains ':' = false) ∧
    parseParams ("nocolon".data ++ ',' :: "x:INT".data) = parseParams "x:INT".data :=
  ⟨⟨by decide, by decide⟩,
    c7_params_order_and_skip.2 "nocolon".data "x:INT".data (by decide) (by decide)⟩

/-- Witness for C9 at a concrete source text containing a function metadata block. -/
theorem c9_absent_metadata_witness :
    parse_function_metadata "-- FUNCTION_METADATA\n-- name: f\n-- END_METADATA".data =
      some { name := some "f".data, params := [], description := none,
             returns := "DECIMAL".data } ∧
    BlockPresent "-- FUNCTION_METADATA".data
      "-- FUNCTION_METADATA\n-- name: f\n-- END_METADATA".data :=
  ⟨by decide,
    c9_absent_metadata.1 "-- FUNCTION_METADATA\n-- name: f\n-- END_METADATA".data
      { name := some "f".data, params := [], description := none,
        returns := "DECIMAL".data } (by decide)⟩

end Bluecon
